import Mathlib

/-!
# Creator-ranking backend: a shallow embedding

A Lean 4 embedding of `app/main.py` of the creator-ranking backend
(FastAPI service): handle normalisation, Mastodon stats fetching with a
deterministic demo fallback, the scoring formula, the global-rank
mapping, and the `/api/rank` handler, together with theorems about them.

Modelling conventions:
* Python machine floats are modelled by exact rationals (`ℚ`);
  `round(x, 2)` is modelled by rounding `100*x` to the nearest integer
  (Python uses round-half-to-even on floats; the difference can only
  show at exact half-hundredth ties, which none of the theorems below
  depend on).
* Python `int(x)` on a float is truncation toward zero (`pyInt`).
* Counts (`followers`, …) are `ℕ`, as the upstream JSON fields and the
  demo generator only produce non-negative integers.
* The network is modelled by an oracle `String → String → Option
  MastodonAccount`: per (instance base URL, username), either a parsed
  200 response or `none` (non-200 status, timeout, or any exception —
  the Python code treats all of those alike by `continue`ing).
-/

namespace CreatorRanking

/-- Python `int(x)` applied to a real value: truncation toward zero. -/
def pyInt (q : ℚ) : ℤ := if 0 ≤ q then ⌊q⌋ else ⌈q⌉

/-- Python `round(x, 2)`: round to the nearest hundredth (ties modelled
half-up; see the module comment). -/
def round2 (q : ℚ) : ℚ := (round (q * 100) : ℤ) / 100

/-- The denominator `max(following, 1)` guarding the engagement ratio in
`calculate_score` (main.py line 207). -/
def score_denominator (following : ℕ) : ℕ := max following 1

/-- `calculate_score` (main.py lines 201–226): weighted combination of
follower count, impressions, engagement ratio and content volume,
rounded to two decimals. -/
def calculate_score (followers following tweets impressions : ℕ) : ℚ :=
  let engagement_ratio : ℚ := min ((followers : ℚ) / (score_denominator following : ℕ)) 10
  let content_score : ℚ := min ((tweets : ℚ) / 1000) 10
  let reach_score : ℚ := (impressions : ℚ) / 10000
  let follower_score : ℚ := (followers : ℚ) / 1000
  round2 (follower_score * 0.4 + reach_score * 0.3 +
    engagement_ratio * 0.2 + content_score * 0.1)

/-- `calculate_global_rank` (main.py lines 228–261): piecewise-linear
map from score to a rank, clamped to `[1, 15000000]`.  (The Python
function also increments the in-memory `user_rankings` table; that
side effect does not influence the returned value and is not part of
the functional model.) -/
def calculate_global_rank (score : ℚ) : ℤ :=
  let rank : ℤ :=
    if 100 ≤ score then
      pyInt (1 + 150000 * (200 - score) / 100)
    else if 50 ≤ score then
      pyInt (150000 + 1350000 * (100 - score) / 50)
    else if 10 ≤ score then
      pyInt (1500000 + 6000000 * (50 - score) / 40)
    else
      pyInt (7500000 + 7500000 * (10 - score) / 10)
  max 1 (min rank 15000000)

/-- `calculate_global_rank` restricted to the hundredth grid: the exact
value of `calculate_global_rank (k / 100)`, with every band collapsed
to integer arithmetic (proved in `calculate_global_rank_hundredths`). -/
def rank_c (k : ℤ) : ℤ :=
  let rank : ℤ :=
    if 10000 ≤ k then 300001 - 15 * k
    else if 5000 ≤ k then 2850000 - 270 * k
    else if 1000 ≤ k then 9000000 - 1500 * k
    else 15000000 - 7500 * k
  max 1 (min rank 15000000)

/-- The four raw counts the pipeline works with (`ProfileStats` of the
spec; the dict `{'followers', 'following', 'tweets', 'impressions'}`
in main.py). -/
structure Stats where
  followers : ℕ
  following : ℕ
  tweets : ℕ
  impressions : ℕ
  deriving Repr, DecidableEq

/-- `sum(ord(c) for c in handle.lower())` (main.py line 59).  `Char.toLower`
lower-cases ASCII letters, which is the relevant fragment for handles. -/
def handle_hash (handle : String) : ℕ :=
  (handle.toList.map (fun c => c.toLower.toNat)).sum

/-- `generate_demo_stats` (main.py lines 53–72): deterministic
pseudo-random stats derived from the handle by fixed-modulus
arithmetic. -/
def generate_demo_stats (handle : String) : Stats :=
  let h := handle_hash handle
  let base_followers := (h * 137) % 500000 + 10000
  let base_following := (h * 73) % 5000 + 500
  let base_tweets := (h * 97) % 50000 + 1000
  let base_impressions := base_followers * (h % 10 + 5)
  ⟨base_followers, base_following, base_tweets, base_impressions⟩

/-- `handle.lstrip('@')` (main.py line 81): remove every leading `'@'`.
(Python's `lstrip` with an argument strips *all* leading characters of
the given set, not just one.) -/
def normalize_handle (handle : String) : String :=
  String.mk (handle.toList.dropWhile (· == '@'))

/-- The hard-wired list `MASTODON_INSTANCES` (main.py lines 23–32). -/
def MASTODON_INSTANCES : List String :=
  ["https://mastodon.social", "https://mstdn.social", "https://mastodon.online",
   "https://fosstodon.org", "https://mas.to", "https://techhub.social",
   "https://mastodon.world", "https://infosec.exchange"]

/-- Handle parsing in `fetch_mastodon_stats` (main.py lines 80–90): strip
leading `'@'`s, then either split `user@domain` at the first `'@'`
(Python `split('@', 1)`) giving a single instance URL, or fall back to
the default instance list. Returns `(username, instances_to_try)`. -/
def split_handle (handle : String) : String × List String :=
  let h := (normalize_handle handle).toList
  if '@' ∈ h then
    let username := h.takeWhile (fun c => c != '@')
    let domain := (h.dropWhile (fun c => c != '@')).tail
    (String.mk username, ["https://" ++ String.mk domain])
  else
    (String.mk h, MASTODON_INSTANCES)

/-- The fields the backend reads out of a Mastodon
`/api/v1/accounts/lookup` 200 response (main.py lines 106–108; absent
fields default to 0 via `data.get(..., 0)`, so plain naturals model the
read values). -/
structure MastodonAccount where
  followers_count : ℕ
  following_count : ℕ
  statuses_count : ℕ
  deriving Repr, DecidableEq

/-- The stats dict built from a 200 response (main.py lines 110–122),
including the impressions estimate
`max(int(followers * 0.075 * min(posts, 100)), followers)`. -/
def mastodon_stats_of (acc : MastodonAccount) : Stats :=
  let followers := acc.followers_count
  let posts := acc.statuses_count
  let impressions0 := pyInt ((followers : ℚ) * 0.075 * (min posts 100 : ℕ))
  ⟨followers, acc.following_count, posts, max impressions0.toNat followers⟩

/-- The `for instance in instances_to_try` loop of `fetch_mastodon_stats`
(main.py lines 93–131): the first instance whose response has
`followers > 0 or posts > 0` wins; failed requests (`none`) and
all-zero accounts are skipped. -/
def try_instances (network : String → String → Option MastodonAccount)
    (username : String) : List String → Option Stats
  | [] => none
  | inst :: rest =>
    match network inst username with
    | some data =>
      if 0 < data.followers_count ∨ 0 < data.statuses_count then
        some (mastodon_stats_of data)
      else try_instances network username rest
    | none => try_instances network username rest

/-- `fetch_mastodon_stats` (main.py lines 74–135), with the network as
an explicit oracle: loop over the instances to try; if none yields a
valid result, fall back to `generate_demo_stats` on the stripped
handle. -/
def fetch_mastodon_stats (network : String → String → Option MastodonAccount)
    (handle : String) : Stats :=
  let p := split_handle handle
  match try_instances network p.1 p.2 with
  | some s => s
  | none => generate_demo_stats (normalize_handle handle)

/-- The numeric value of a digit run, most significant first. -/
def natOfDigits (l : List Char) : ℕ :=
  l.foldl (fun a c => a * 10 + (c.toNat - 48)) 0

/-- The optional exponent tail of a Python float literal: either nothing
is left, or `e`/`E`, an optional sign and a non-empty digit run ending
the string. -/
def applyExponent (mantissa : ℚ) : List Char → Option ℚ
  | [] => some mantissa
  | e :: rest =>
    if e = 'e' ∨ e = 'E' then
      let (neg, rest') : Bool × List Char :=
        match rest with
        | '+' :: r => (false, r)
        | '-' :: r => (true, r)
        | r => (false, r)
      let ds := rest'.takeWhile Char.isDigit
      let tail := rest'.dropWhile Char.isDigit
      if ds.isEmpty ∨ ¬ tail.isEmpty then none
      else if neg then some (mantissa / 10 ^ natOfDigits ds)
      else some (mantissa * 10 ^ natOfDigits ds)
    else none

/-- Python `float(text)` on the fragment `parse_number` can feed it:
optional sign, then digits with an optional `.` fractional part (at
least one digit overall), then an optional exponent; `none` where
Python raises `ValueError` (caught in `parse_number` and turned into
0).  `inf`/`nan` and digit underscores lie outside the modelled
fragment. -/
def pyFloat? (l : List Char) : Option ℚ :=
  let (sign, l') : ℚ × List Char :=
    match l with
    | '+' :: r => (1, r)
    | '-' :: r => (-1, r)
    | r => (1, r)
  let intDigits := l'.takeWhile Char.isDigit
  let afterInt := l'.dropWhile Char.isDigit
  match afterInt with
  | '.' :: rest =>
    let fracDigits := rest.takeWhile Char.isDigit
    let afterFrac := rest.dropWhile Char.isDigit
    if intDigits.isEmpty ∧ fracDigits.isEmpty then none
    else
      applyExponent
        (sign * ((natOfDigits intDigits : ℚ) +
          (natOfDigits fracDigits : ℚ) / 10 ^ fracDigits.length)) afterFrac
  | rest =>
    if intDigits.isEmpty then none
    else applyExponent (sign * (natOfDigits intDigits : ℚ)) rest

/-- Python `text.strip()`: drop whitespace from both ends. -/
def pyStrip (l : List Char) : List Char :=
  ((l.dropWhile Char.isWhitespace).reverse.dropWhile Char.isWhitespace).reverse

/-- `parse_number` (main.py lines 137–156): strip and upper-case, apply
the `K`/`M` multiplier (removing every occurrence of the letter —
Python `text.replace('K', '')` with a one-character pattern and empty
replacement), strip commas, and truncate `float(text) * multiplier` to
an integer; any parse failure yields 0.  The Python `str` operations
are modelled on the character list. -/
def parse_number (text : String) : ℤ :=
  let t := (pyStrip text.toList).map Char.toUpper
  let (multiplier, t') : ℕ × List Char :=
    if 'K' ∈ t then (1000, t.filter (fun c => c != 'K'))
    else if 'M' ∈ t then (1000000, t.filter (fun c => c != 'M'))
    else (1, t)
  let t'' := t'.filter (fun c => c != ',')
  match pyFloat? t'' with
  | some q => pyInt (q * (multiplier : ℚ))
  | none => 0

/-- `RankRequest` (main.py lines 40–41). -/
structure RankRequest where
  handle : String
  deriving Repr, DecidableEq

/-- `RankResponse` (main.py lines 43–51). -/
structure RankResponse where
  handle : String
  followers : ℕ
  following : ℕ
  tweets : ℕ
  impressions : ℕ
  score : ℚ
  global_rank : ℤ
  total_users : ℕ
  deriving Repr, DecidableEq

/-- The observable outcome of one call of the `/api/rank` handler: a 200
with a `RankResponse` body, or an `HTTPException` with a status code
and detail string. -/
inductive ApiResult where
  | ok (resp : RankResponse)
  | httpError (status : ℕ) (detail : String)
  deriving Repr, DecidableEq

/-- The HTTP status code an `ApiResult` is sent with. -/
def statusOf : ApiResult → ℕ
  | .ok _ => 200
  | .httpError s _ => s

/-- `get_rank`, the `POST /api/rank` handler (main.py lines 267–303):
fetch stats, score them, rank the score, and answer 200.  Every
exception source in the Python body is already swallowed inside
`fetch_mastodon_stats`'s per-instance `try/except` (and
`calculate_score`'s denominator is guarded), so the handler's
`except`-branches (500, re-raised `HTTPException`) are dead code on
this model; in particular the handler performs no validation of
`request.handle`. -/
def get_rank (network : String → String → Option MastodonAccount)
    (request : RankRequest) : ApiResult :=
  let stats := fetch_mastodon_stats network request.handle
  let score := calculate_score stats.followers stats.following stats.tweets stats.impressions
  let global_rank := calculate_global_rank score
  .ok ⟨normalize_handle request.handle, stats.followers, stats.following,
    stats.tweets, stats.impressions, score, global_rank, 15000000⟩

/-! ## Helper lemmas -/

/-- `pyInt` on an integer value is that integer. -/
lemma pyInt_intCast (z : ℤ) : pyInt (z : ℚ) = z := by
  unfold pyInt
  split <;> simp

/-- Rounding to two decimals moves a value up by at most `1/200`. -/
lemma round2_le (q : ℚ) : round2 q ≤ q + 1/200 := by
  have h := abs_sub_round (q * 100)
  rw [abs_le] at h
  unfold round2
  have h2 : (round (q * 100) : ℚ) ≤ q * 100 + 1/2 := by linarith [h.1]
  linarith

/-- Rounding to two decimals moves a value down by at most `1/200`. -/
lemma le_round2 (q : ℚ) : q - 1/200 ≤ round2 q := by
  have h := abs_sub_round (q * 100)
  rw [abs_le] at h
  unfold round2
  have h2 : q * 100 - 1/2 ≤ (round (q * 100) : ℚ) := by linarith [h.2]
  linarith

/-- Rounding to two decimals is monotone. -/
lemma round2_mono {a b : ℚ} (h : a ≤ b) : round2 a ≤ round2 b := by
  unfold round2
  have h1 : round (a * 100) ≤ round (b * 100) := by
    rw [round_eq, round_eq]
    exact Int.floor_mono (by linarith)
  have h2 : ((round (a * 100) : ℤ) : ℚ) ≤ ((round (b * 100) : ℤ) : ℚ) := by
    exact_mod_cast h1
  linarith

/-- The guarded denominator is positive, also as a rational. -/
lemma score_denominator_pos_rat (fo : ℕ) : (0 : ℚ) < (score_denominator fo : ℚ) := by
  have h : 0 < score_denominator fo := lt_of_lt_of_le Nat.zero_lt_one (le_max_right fo 1)
  exact_mod_cast h

/-- Lower bound on the score: the uncapped follower and reach terms
enter linearly; the two capped terms are non-negative; rounding costs
at most `1/200`. -/
lemma calculate_score_lower (f fo t i : ℕ) :
    (f : ℚ) / 2500 + 3 * (i : ℚ) / 100000 - 1/200 ≤ calculate_score f fo t i := by
  unfold calculate_score
  have hr := le_round2 ((f : ℚ) / 1000 * 0.4 + (i : ℚ) / 10000 * 0.3 +
    min ((f : ℚ) / (score_denominator fo : ℕ)) 10 * 0.2 + min ((t : ℚ) / 1000) 10 * 0.1)
  have he : (0:ℚ) ≤ min ((f : ℚ) / (score_denominator fo : ℕ)) 10 :=
    le_min (div_nonneg (by positivity) (le_of_lt (score_denominator_pos_rat fo))) (by norm_num)
  have hc : (0:ℚ) ≤ min ((t : ℚ) / 1000) 10 := le_min (by positivity) (by norm_num)
  linarith

/-- Upper bound on the score: the engagement and content factors are
capped at 10 each, so together they contribute at most
`0.2 * 10 + 0.1 * 10 = 3`; follower and reach terms enter linearly. -/
lemma calculate_score_upper (f fo t i : ℕ) :
    calculate_score f fo t i ≤ (f : ℚ) / 2500 + 3 * (i : ℚ) / 100000 + 3 + 1/200 := by
  unfold calculate_score
  have hr := round2_le ((f : ℚ) / 1000 * 0.4 + (i : ℚ) / 10000 * 0.3 +
    min ((f : ℚ) / (score_denominator fo : ℕ)) 10 * 0.2 + min ((t : ℚ) / 1000) 10 * 0.1)
  have he : min ((f : ℚ) / (score_denominator fo : ℕ)) 10 ≤ 10 := min_le_right _ _
  have hc : min ((t : ℚ) / 1000) 10 ≤ 10 := min_le_right _ _
  linarith

/-- `calculate_score` is monotone: non-decreasing in followers, tweets
and impressions, non-increasing in following (`fo' ≤ fo` makes the
left-hand side the larger-following one). -/
lemma calculate_score_le_calculate_score
    {f f' fo fo' t t' i i' : ℕ} (hf : f ≤ f') (hfo : fo' ≤ fo) (ht : t ≤ t') (hi : i ≤ i') :
    calculate_score f fo t i ≤ calculate_score f' fo' t' i' := by
  unfold calculate_score
  apply round2_mono
  have hfq : (f : ℚ) ≤ (f' : ℚ) := by exact_mod_cast hf
  have h1 : (f : ℚ) / 1000 ≤ (f' : ℚ) / 1000 := by gcongr
  have h2 : (i : ℚ) / 10000 ≤ (i' : ℚ) / 10000 := by gcongr
  have hden : (score_denominator fo' : ℚ) ≤ (score_denominator fo : ℚ) := by
    have h : score_denominator fo' ≤ score_denominator fo := max_le_max hfo le_rfl
    exact_mod_cast h
  have h3 : min ((f : ℚ) / (score_denominator fo : ℕ)) 10 ≤
      min ((f' : ℚ) / (score_denominator fo' : ℕ)) 10 := by
    apply min_le_min _ le_rfl
    exact div_le_div₀ (by positivity) hfq (score_denominator_pos_rat fo') hden
  have h4 : min ((t : ℚ) / 1000) 10 ≤ min ((t' : ℚ) / 1000) 10 := by
    apply min_le_min _ le_rfl
    gcongr
  linarith

/-- `calculate_global_rank` on a score of `k` hundredths: every band's
float expression is exactly the integer of `rank_c`, so `int()`
truncation is the identity there. -/
lemma calculate_global_rank_hundredths (k : ℤ) :
    calculate_global_rank ((k : ℚ) / 100) = rank_c k := by
  unfold calculate_global_rank rank_c
  have h100 : ((100:ℚ) ≤ (k:ℚ)/100) ↔ ((10000:ℤ) ≤ k) := by
    rw [le_div_iff₀ (by norm_num)]
    exact_mod_cast Iff.rfl
  have h50 : ((50:ℚ) ≤ (k:ℚ)/100) ↔ ((5000:ℤ) ≤ k) := by
    rw [le_div_iff₀ (by norm_num)]
    exact_mod_cast Iff.rfl
  have h10 : ((10:ℚ) ≤ (k:ℚ)/100) ↔ ((1000:ℤ) ≤ k) := by
    rw [le_div_iff₀ (by norm_num)]
    exact_mod_cast Iff.rfl
  simp only [h100, h50, h10]
  split_ifs with h1 h2 h3
  · have e : (1 + 150000 * (200 - (k:ℚ)/100) / 100) = ((300001 - 15*k : ℤ) : ℚ) := by
      push_cast; field_simp; ring
    rw [e, pyInt_intCast]
  · have e : (150000 + 1350000 * (100 - (k:ℚ)/100) / 50) = ((2850000 - 270*k : ℤ) : ℚ) := by
      push_cast; field_simp; ring
    rw [e, pyInt_intCast]
  · have e : (1500000 + 6000000 * (50 - (k:ℚ)/100) / 40) = ((9000000 - 1500*k : ℤ) : ℚ) := by
      push_cast; field_simp; ring
    rw [e, pyInt_intCast]
  · have e : (7500000 + 7500000 * (10 - (k:ℚ)/100) / 10) = ((15000000 - 7500*k : ℤ) : ℚ) := by
      push_cast; field_simp; ring
    rw [e, pyInt_intCast]

/-- On the hundredth grid the band formulas are integer linear maps with
negative slope, they do not leapfrog at the band boundaries, and the
clamp preserves order, so `rank_c` is antitone. -/
lemma rank_c_antitone {k1 k2 : ℤ} (h : k1 ≤ k2) : rank_c k2 ≤ rank_c k1 := by
  unfold rank_c
  apply max_le_max le_rfl
  apply min_le_min _ le_rfl
  split_ifs <;> omega

/-- All-zero responses make the instance loop fall through to `none`. -/
lemma try_instances_all_zero (network : String → String → Option MastodonAccount)
    (username : String) (L : List String)
    (h : ∀ inst ∈ L, ∀ acc, network inst username = some acc →
      acc.followers_count = 0 ∧ acc.statuses_count = 0) :
    try_instances network username L = none := by
  induction L with
  | nil => rfl
  | cons a L ih =>
    have ih' := ih (fun inst hi => h inst (List.mem_cons_of_mem _ hi))
    cases hn : network a username with
    | none => simp [try_instances, hn, ih']
    | some acc =>
      have hz := h a (List.mem_cons_self _ _) acc hn
      simp [try_instances, hn, hz.1, hz.2, ih']

/-- The first character surviving `dropWhile (· == '@')` is not `'@'`. -/
lemma dropWhile_head_not (l : List Char) :
    ∀ c ∈ (l.dropWhile (· == '@')).take 1, c ≠ '@' := by
  induction l with
  | nil => simp
  | cons a l ih =>
    by_cases h : a = '@'
    · simpa [List.dropWhile_cons, h] using ih
    · simp [List.dropWhile_cons, h]

/-- `dropWhile` only removes a prefix. -/
lemma dropWhile_isSuffix (p : Char → Bool) : ∀ l : List Char, l.dropWhile p <:+ l := by
  intro l
  induction l with
  | nil => simp
  | cons a l ih =>
    by_cases h : p a
    · rw [List.dropWhile_cons_of_pos h]
      exact ih.trans (List.suffix_cons a l)
    · rw [List.dropWhile_cons_of_neg h]

/-! ## Claim theorems -/

/-- Claim C1, counterexample: the handler has no empty-handle check.
With the handle `""` and every instance lookup failing, `POST
/api/rank` answers 200 (with demo-derived stats), not the claimed
400. -/
theorem get_rank_empty_handle_200 :
    statusOf (get_rank (fun _ _ => none) ⟨""⟩) = 200 ∧
    statusOf (get_rank (fun _ _ => none) ⟨""⟩) ≠ 400 := by
  refine ⟨rfl, fun h => ?_⟩
  rw [show statusOf (get_rank (fun _ _ => none) ⟨""⟩) = 200 from rfl] at h
  exact absurd h (by norm_num)

/-- Claim C1, amended: `get_rank` validates nothing and has no live
error path — for every network behaviour and every request (the empty
handle included) it returns HTTP 200. -/
theorem get_rank_always_200 (network : String → String → Option MastodonAccount)
    (request : RankRequest) : statusOf (get_rank network request) = 200 := rfl

/-- Claim C2: for every score (negative, zero or arbitrarily large),
`calculate_global_rank` returns a rank with `1 ≤ rank ≤ 15000000`,
the total-users constant. -/
theorem calculate_global_rank_bounds (s : ℚ) :
    1 ≤ calculate_global_rank s ∧ calculate_global_rank s ≤ 15000000 := by
  unfold calculate_global_rank
  exact ⟨le_max_left _ _, max_le (by norm_num) (min_le_right _ _)⟩

/-- Claim C3, counterexample: the rank mapping is not monotonically
non-increasing over all scores.  Just below the 100 boundary the
second band's value truncates to 150000, while the first band gives
score 100 the larger rank 150001. -/
theorem calculate_global_rank_not_antitone :
    (100 - 1/54000 : ℚ) ≤ 100 ∧
    calculate_global_rank (100 - 1/54000) < calculate_global_rank 100 := by
  constructor
  · norm_num
  · norm_num [calculate_global_rank, pyInt]

/-- Claim C3, amended: restricted to scores that are whole hundredths —
every value `calculate_score` can produce, it rounding to two
decimals — the rank mapping is monotonically non-increasing as the
score increases, including across the band boundaries at 10, 50
and 100. -/
theorem calculate_global_rank_antitone_on_hundredths (k1 k2 : ℤ) (h : k1 ≤ k2) :
    calculate_global_rank ((k2 : ℚ) / 100) ≤ calculate_global_rank ((k1 : ℚ) / 100) := by
  rw [calculate_global_rank_hundredths, calculate_global_rank_hundredths]
  exact rank_c_antitone h

/-- Witness for `calculate_global_rank_antitone_on_hundredths` at the
concrete pair 7.60 ≤ 100.00 (crossing all three band boundaries). -/
theorem calculate_global_rank_antitone_witness :
    calculate_global_rank (((10000 : ℤ) : ℚ) / 100) ≤
      calculate_global_rank (((760 : ℤ) : ℚ) / 100) :=
  calculate_global_rank_antitone_on_hundredths 760 10000 (by norm_num)

/-- Claim C4, counterexample: normalization does not strip exactly one
`"@"` and does not trim whitespace: `normalize("@foo ")` keeps the
trailing blank, and `normalize("@@foo")` loses both `"@"`s. -/
theorem normalize_handle_counterexample :
    normalize_handle "@foo " ≠ "foo" ∧ normalize_handle "@@foo" ≠ "@foo" := by
  constructor <;> decide

/-- Claim C4, amended: normalization (`handle.lstrip('@')`) strips all
leading `"@"` characters — so the result never starts with `"@"` and
is a suffix of the input — and performs no whitespace trimming:
`normalize("@foo ") = "foo "` and `normalize("@@foo") = "foo"`. -/
theorem normalize_handle_spec :
    (∀ s : String, ∀ c ∈ (normalize_handle s).toList.take 1, c ≠ '@') ∧
    (∀ s : String, (normalize_handle s).toList <:+ s.toList) ∧
    normalize_handle "@foo " = "foo " ∧ normalize_handle "@@foo" = "foo" := by
  refine ⟨fun s => ?_, fun s => ?_, rfl, rfl⟩
  · exact dropWhile_head_not s.toList
  · exact dropWhile_isSuffix _ s.toList

/-- Claim C5, counterexample: not every sub-score factor is capped.  A
weighted sum of capped factors would be bounded, but `calculate_score`
is unbounded in the follower input (its follower and reach factors are
uncapped). -/
theorem calculate_score_unbounded :
    ¬ ∃ B : ℚ, ∀ f fo t i : ℕ, calculate_score f fo t i ≤ B := by
  rintro ⟨B, hB⟩
  set n : ℕ := 2500 * (⌈B⌉.toNat + 1) with hn
  have hlow := calculate_score_lower n 0 0 0
  have hB' := hB n 0 0 0
  have h1 : B ≤ ((⌈B⌉.toNat : ℕ) : ℚ) := by
    calc B ≤ (⌈B⌉ : ℚ) := Int.le_ceil B
    _ ≤ ((⌈B⌉.toNat : ℕ) : ℚ) := by exact_mod_cast Int.self_le_toNat _
  have h2 : (n : ℚ) / 2500 = ((⌈B⌉.toNat : ℕ) : ℚ) + 1 := by
    rw [hn]; push_cast; ring
  norm_num at hlow
  linarith

/-- Claim C5, amended: two of the four factors — engagement ratio and
activity volume — are capped at 10, so together they contribute at
most `0.2*10 + 0.1*10 = 3`; follower magnitude and reach are uncapped
linear terms (`0.4 * f/1000 = f/2500` and `0.3 * i/10000 =
3i/100000`); the weights sum to 1 and the result is rounded to two
decimal places (so it is a whole number of hundredths, and sits within
`1/200` of the weighted sum). -/
theorem calculate_score_shape (f fo t i : ℕ) :
    (∃ z : ℤ, calculate_score f fo t i = (z : ℚ) / 100) ∧
    (f : ℚ) / 2500 + 3 * (i : ℚ) / 100000 - 1/200 ≤ calculate_score f fo t i ∧
    calculate_score f fo t i ≤ (f : ℚ) / 2500 + 3 * (i : ℚ) / 100000 + 3 + 1/200 :=
  ⟨⟨_, rfl⟩, calculate_score_lower f fo t i, calculate_score_upper f fo t i⟩

/-- Claim C6: `calculate_score` is monotonically non-decreasing in each
of followers, impressions and tweets with the other inputs fixed, and
non-increasing in following (with followers, tweets, impressions
fixed) once following exceeds followers. -/
theorem calculate_score_monotone (f f' fo fo' t t' i i' : ℕ)
    (hf : f ≤ f') (hi : i ≤ i') (ht : t ≤ t') (hff : f < fo) (hfo : fo ≤ fo') :
    calculate_score f fo t i ≤ calculate_score f' fo t i ∧
    calculate_score f fo t i ≤ calculate_score f fo t i' ∧
    calculate_score f fo t i ≤ calculate_score f fo t' i ∧
    calculate_score f fo' t i ≤ calculate_score f fo t i :=
  ⟨calculate_score_le_calculate_score hf le_rfl le_rfl le_rfl,
   calculate_score_le_calculate_score le_rfl le_rfl le_rfl hi,
   calculate_score_le_calculate_score le_rfl le_rfl ht le_rfl,
   calculate_score_le_calculate_score le_rfl hfo le_rfl le_rfl⟩

/-- Witness for `calculate_score_monotone` at followers 1 ≤ 2,
impressions 0 ≤ 5, tweets 0 ≤ 1, following 3 ≤ 4 with 1 < 3. -/
theorem calculate_score_monotone_witness :
    calculate_score 1 3 0 0 ≤ calculate_score 2 3 0 0 ∧
    calculate_score 1 3 0 0 ≤ calculate_score 1 3 0 5 ∧
    calculate_score 1 3 0 0 ≤ calculate_score 1 3 1 0 ∧
    calculate_score 1 4 0 0 ≤ calculate_score 1 3 0 0 :=
  calculate_score_monotone 1 2 3 4 0 1 0 5 (by norm_num) (by norm_num)
    (by norm_num) (by norm_num) (by norm_num)

/-- Claim C7: `parse_number` maps `"1,234"` to 1234, `"1.2K"` to 1200,
`"3M"` to 3000000, `""` to 0 and `"abc"` to 0. -/
theorem parse_number_examples :
    parse_number "1,234" = 1234 ∧ parse_number "1.2K" = 1200 ∧
    parse_number "3M" = 3000000 ∧ parse_number "" = 0 ∧ parse_number "abc" = 0 := by
  refine ⟨?_, ?_, ?_, rfl, rfl⟩
  · have h : parse_number "1,234" = pyInt (1 * ((1234:ℕ) : ℚ) * ((1:ℕ) : ℚ)) := rfl
    rw [h]; norm_num [pyInt]
  · have h : parse_number "1.2K" =
      pyInt (1 * (((1:ℕ) : ℚ) + ((2:ℕ) : ℚ) / 10 ^ (1:ℕ)) * ((1000:ℕ) : ℚ)) := rfl
    rw [h]; norm_num [pyInt]
  · have h : parse_number "3M" = pyInt (1 * ((3:ℕ) : ℚ) * ((1000000:ℕ) : ℚ)) := rfl
    rw [h]; norm_num [pyInt]

/-- Claim C8, counterexample: demo followers do not always lie in
`[1500, 501500)`.  The handle `"2zzzzzzzzzzzzzzzzzzzzzzzzzzzzz"`
(character-code sum 3588, so `(3588 * 137) % 500000 + 10000 =
501556`) yields followers at or above 501500. -/
theorem generate_demo_stats_followers_out_of_range :
    501500 ≤ (generate_demo_stats "2zzzzzzzzzzzzzzzzzzzzzzzzzzzzz").followers := by
  rw [show (generate_demo_stats "2zzzzzzzzzzzzzzzzzzzzzzzzzzzzz").followers = 501556 from rfl]
  norm_num

/-- Claim C8, amended: the demo stats derive from fixed-modulus
arithmetic on the summed character codes of the lowercased handle, and
the followers value `(hash * 137) % 500000 + 10000` always lies in
`[10000, 510000)`. -/
theorem generate_demo_stats_followers_range (handle : String) :
    10000 ≤ (generate_demo_stats handle).followers ∧
    (generate_demo_stats handle).followers < 510000 := by
  unfold generate_demo_stats
  dsimp only
  omega

/-- Claim C9: `calculate_score` never divides by zero — the denominator
`max(following, 1)` is positive for every following count — and
following 0 yields exactly the score of minimum denominator 1, so the
function is total there. -/
theorem calculate_score_division_safe (f t i fo : ℕ) :
    0 < score_denominator fo ∧ calculate_score f 0 t i = calculate_score f 1 t i :=
  ⟨lt_of_lt_of_le Nat.zero_lt_one (le_max_right fo 1), rfl⟩

/-- Claim C10: a 200 response counts as valid only with strictly
positive followers or posts.  When every tried instance answers with
`followers_count = 0` and `statuses_count = 0` (or fails), the real
responses are ignored and the deterministic demo stats for the
stripped handle are returned. -/
theorem fetch_mastodon_stats_zero_rejected
    (network : String → String → Option MastodonAccount) (handle : String)
    (h : ∀ inst ∈ (split_handle handle).2, ∀ acc,
      network inst (split_handle handle).1 = some acc →
      acc.followers_count = 0 ∧ acc.statuses_count = 0) :
    fetch_mastodon_stats network handle = generate_demo_stats (normalize_handle handle) := by
  unfold fetch_mastodon_stats
  dsimp only
  rw [try_instances_all_zero _ _ _ h]

/-- Witness for `fetch_mastodon_stats_zero_rejected`: every instance
returns an existing account with 0 followers and 0 posts for
`"alice"`, and the fetch returns the demo stats. -/
theorem fetch_mastodon_stats_zero_rejected_witness :
    fetch_mastodon_stats (fun _ _ => some ⟨0, 7, 0⟩) "alice" =
      generate_demo_stats (normalize_handle "alice") :=
  fetch_mastodon_stats_zero_rejected (fun _ _ => some ⟨0, 7, 0⟩) "alice"
    (fun _ _ acc hacc => by cases hacc; exact ⟨rfl, rfl⟩)

end CreatorRanking
